import Mathlib

set_option maxRecDepth 10000

/-!
# Verification of the splinter admin service (`libsplinter/src/admin/mod.rs`)

A shallow embedding of the admin service's digest utility, lifecycle state
machine, message handling and REST intake, with theorems settling the
specification's claims about them.

Bytes are modelled as `List Nat` (each element morally `< 256`); machine
words are `Nat` reduced modulo `2^32` where the code's `u32` arithmetic
wraps.
-/

namespace SplinterAdmin

/-! ## Digest utility

The source's `sha256` serializes a protobuf message and hashes it with
OpenSSL's SHA-256, then renders the digest with `to_hex`.  Messages are
modelled as their serialized bytes.  The SHA-256 primitive itself is an
external collaborator of the source (OpenSSL); it is embedded here as the
standard FIPS 180-4 SHA-256 over byte lists so that digests are concrete
and computable. -/

/-- `2^32`, the modulus of the code's 32-bit word arithmetic. -/
def w32 : Nat := 4294967296

/-- 32-bit rotate right. -/
def rotr (n x : Nat) : Nat :=
  ((x >>> n) ||| (x <<< (32 - n))) % w32

/-- Bitwise complement on 32-bit words. -/
def bnot32 (x : Nat) : Nat := x ^^^ (w32 - 1)

/-- SHA-256 round constants (FIPS 180-4, written in decimal). -/
def sha256K : List Nat :=
  [1116352408, 1899447441, 3049323471, 3921009573, 961987163, 1508970993,
   2453635748, 2870763221, 3624381080, 310598401, 607225278, 1426881987,
   1925078388, 2162078206, 2614888103, 3248222580, 3835390401, 4022224774,
   264347078, 604807628, 770255983, 1249150122, 1555081692, 1996064986,
   2554220882, 2821834349, 2952996808, 3210313671, 3336571891, 3584528711,
   113926993, 338241895, 666307205, 773529912, 1294757372, 1396182291,
   1695183700, 1986661051, 2177026350, 2456956037, 2730485921, 2820302411,
   3259730800, 3345764771, 3516065817, 3600352804, 4094571909, 275423344,
   430227734, 506948616, 659060556, 883997877, 958139571, 1322822218,
   1537002063, 1747873779, 1955562222, 2024104815, 2227730452, 2361852424,
   2428436474, 2756734187, 3204031479, 3329325298]

/-- SHA-256 initial hash value (FIPS 180-4, written in decimal). -/
def sha256H0 : List Nat :=
  [1779033703, 3144134277, 1013904242, 2773480762,
   1359893119, 2600822924, 528734635, 1541459225]

/-- Big-endian 8-byte rendering of a length in bits. -/
def lenBytesBE (n : Nat) : List Nat :=
  [(n >>> 56) % 256, (n >>> 48) % 256, (n >>> 40) % 256, (n >>> 32) % 256,
   (n >>> 24) % 256, (n >>> 16) % 256, (n >>> 8) % 256, n % 256]

/-- SHA-256 message padding: append `0x80`, zero bytes to reach 56 mod 64,
then the bit length as 8 big-endian bytes. -/
def sha256Pad (msg : List Nat) : List Nat :=
  let l := msg.length
  let k := (119 - (l % 64)) % 64
  msg ++ [128] ++ List.replicate k 0 ++ lenBytesBE (8 * l)

/-- Group bytes into big-endian 32-bit words, four bytes at a time. -/
def bytesToWords : List Nat → List Nat
  | a :: b :: c :: d :: rest =>
      ((a <<< 24) ||| (b <<< 16) ||| (c <<< 8) ||| d) :: bytesToWords rest
  | _ => []

/-- `σ₀` of the SHA-256 message schedule. -/
def smallSigma0 (x : Nat) : Nat := (rotr 7 x) ^^^ (rotr 18 x) ^^^ (x >>> 3)

/-- `σ₁` of the SHA-256 message schedule. -/
def smallSigma1 (x : Nat) : Nat := (rotr 17 x) ^^^ (rotr 19 x) ^^^ (x >>> 10)

/-- Append the next message-schedule word. -/
def extendOnce (ws : List Nat) : List Nat :=
  let n := ws.length
  let x := (smallSigma1 (ws.getD (n - 2) 0) + ws.getD (n - 7) 0 +
            smallSigma0 (ws.getD (n - 15) 0) + ws.getD (n - 16) 0) % w32
  ws ++ [x]

/-- Extend a 16-word schedule by `n` further words. -/
def extendSchedule (ws : List Nat) : Nat → List Nat
  | 0 => ws
  | n + 1 => extendSchedule (extendOnce ws) n

/-- `Σ₀` of the SHA-256 compression function. -/
def bigSigma0 (x : Nat) : Nat := (rotr 2 x) ^^^ (rotr 13 x) ^^^ (rotr 22 x)

/-- `Σ₁` of the SHA-256 compression function. -/
def bigSigma1 (x : Nat) : Nat := (rotr 6 x) ^^^ (rotr 11 x) ^^^ (rotr 25 x)

/-- The SHA-256 `Ch` function. -/
def chF (x y z : Nat) : Nat := (x &&& y) ^^^ ((bnot32 x) &&& z)

/-- The SHA-256 `Maj` function. -/
def majF (x y z : Nat) : Nat := (x &&& y) ^^^ (x &&& z) ^^^ (y &&& z)

/-- One round of the SHA-256 compression function on the 8-word state. -/
def compressRound (st : List Nat) (kw : Nat × Nat) : List Nat :=
  match st with
  | [a, b, c, d, e, f, g, h] =>
      let t1 := (h + bigSigma1 e + chF e f g + kw.1 + kw.2) % w32
      let t2 := (bigSigma0 a + majF a b c) % w32
      [(t1 + t2) % w32, a, b, c, (d + t1) % w32, e, f, g]
  | _ => st

/-- Compress one 64-byte block into the running hash value. -/
def compressBlock (h : List Nat) (block : List Nat) : List Nat :=
  let ws := extendSchedule (bytesToWords block) 48
  let st := (sha256K.zip ws).foldl compressRound h
  (h.zip st).map (fun p => (p.1 + p.2) % w32)

/-- Fold the compression function over `n` successive 64-byte blocks. -/
def foldBlocks : Nat → List Nat → List Nat → List Nat
  | 0, h, _ => h
  | n + 1, h, msg => foldBlocks n (compressBlock h (msg.take 64)) (msg.drop 64)

/-- Big-endian 4-byte rendering of a 32-bit word. -/
def wordBytesBE (x : Nat) : List Nat :=
  [(x >>> 24) % 256, (x >>> 16) % 256, (x >>> 8) % 256, x % 256]

/-- The raw 32-byte SHA-256 digest of a byte sequence (the value produced by
the source's external `hash(MessageDigest::sha256(), &bytes)` call). -/
def sha256Digest (msg : List Nat) : List Nat :=
  let padded := sha256Pad msg
  let hs := foldBlocks (padded.length / 64) sha256H0 padded
  hs.foldr (fun x acc => wordBytesBE x ++ acc) []

/-- Lowercase hex digit for a value `< 16`. -/
def hexChar (n : Nat) : Char :=
  if n < 10 then Char.ofNat (48 + n) else Char.ofNat (87 + n)

/-- Rendering of one byte by Rust's `write!("{:0x}", b)`: lowercase hex with
no width, so a leading zero nibble is dropped (`10` renders as `"a"`). -/
def byteHex (b : Nat) : String :=
  if b < 16 then String.singleton (hexChar b)
  else String.mk [hexChar (b / 16), hexChar (b % 16)]

/-- `to_hex` from `admin/mod.rs`: appends `{:0x}` of each byte to a buffer. -/
def to_hex (bytes : List Nat) : String :=
  bytes.foldl (fun buf b => buf ++ byteHex b) ""

/-- `sha256` from `admin/mod.rs`: digest of the message's serialized bytes,
rendered with `to_hex`.  The source's only failure case is protobuf
serialization, which the byte-level model has already performed, so the
embedding is total. -/
def sha256 (msg : List Nat) : String :=
  to_hex (sha256Digest msg)

/-- The bytes of a string, as Rust's `str::as_bytes` (UTF-8); the identifiers
and hex strings involved are ASCII, where UTF-8 agrees with code points. -/
def strBytes (s : String) : List Nat :=
  s.data.map Char.toNat

/-! ## Data model

`Proposal` mirrors `crate::consensus::Proposal` as `handle_message` fills it:
`id` and `summary` are byte strings, `consensus_data` receives
`required_verifiers.to_vec()`, the list of verifier byte strings from the
envelope. -/

/-- A consensus proposal as constructed by the admin service. -/
structure Proposal where
  id : List Nat
  summary : List Nat
  consensus_data : List (List Nat)
deriving DecidableEq, Repr

/-- Updates sent to the consensus adapter via `send_update`
(`crate::consensus::ProposalUpdate`). -/
inductive ProposalUpdate where
  | proposalReceived (proposal : Proposal) (fromPeer : List Nat)
  | proposalAccepted (id : List Nat)
  | proposalRejected (id : List Nat)
deriving DecidableEq, Repr

/-- A decoded `AdminMessage` envelope (`protos::admin::AdminMessage`): a tag
in `{UNSET, CONSENSUS_MESSAGE, PROPOSED_CIRCUIT}` with the corresponding
payload fields. -/
inductive DecodedAdminMessage where
  | consensusMessage (payload : List Nat)
  | proposedCircuit (expected_hash : List Nat) (circuit_payload : List Nat)
      (required_verifiers : List (List Nat))
  | unset
deriving DecidableEq, Repr

/-- The pending-proposal table: proposal id ↦ (proposal, original payload). -/
abbrev PendingTable := List (List Nat × Proposal × List Nat)

/-- Look up a pending entry by proposal id. -/
def lookupPending : PendingTable → List Nat → Option (Proposal × List Nat)
  | [], _ => none
  | (k, p, pl) :: rest, id => if k = id then some (p, pl) else lookupPending rest id

/-- Modelled from the spec: `AdminServiceShared::add_pending_consesus_proposal`
lives in `admin/shared.rs`, which is not among the given sources; the spec
describes it as an insert into the pending table that is idempotent on an
identical id and rejects colliding ids, so an already-present id leaves the
table unchanged. -/
def add_pending_consesus_proposal (t : PendingTable) (id : List Nat)
    (entry : Proposal × List Nat) : PendingTable :=
  if (lookupPending t id).isSome then t else (id, entry.1, entry.2) :: t

/-- The admin shared state, restricted to the fields the claims concern: the
network sender handle (a `Some`/`None` slot; the sender itself is an opaque
token) and the pending-proposal table. -/
structure AdminServiceShared where
  network_sender : Option Nat
  pending : PendingTable
deriving DecidableEq, Repr

/-- The consensus adapter, observed through the traffic the admin service
hands it: `updates` logs `send_update` calls, `handled` logs
`handle_message` calls. -/
structure AdminConsensusManager where
  updates : List ProposalUpdate
  handled : List (List Nat)
deriving DecidableEq, Repr

/-- The admin service: its id, the shared state, and the consensus adapter
slot (`Some` exactly while the adapter is alive; the source uses
`consensus.is_some()` as its started test). -/
structure AdminService where
  service_id : String
  admin_service_shared : AdminServiceShared
  consensus : Option AdminConsensusManager
deriving DecidableEq, Repr

/-- `admin_service_id` from `admin/mod.rs`. -/
def admin_service_id (node_id : String) : String := "admin::" ++ node_id

/-- `AdminService::new`: fresh service in the `Created` state — no network
sender, empty pending table, no consensus adapter. -/
def AdminService.new (node_id : String) : AdminService :=
  { service_id := admin_service_id node_id
    admin_service_shared := { network_sender := none, pending := [] }
    consensus := none }

/-! ## Service lifecycle

The collaborators (`ServiceNetworkRegistry`, the consensus manager
constructor and channel) are fallible; each operation takes its
collaborators' outcomes as explicit arguments, so a run of the state machine
fixes every external result. -/

/-- Errors of `Service::start`. -/
inductive ServiceStartError where
  | alreadyStarted
  | connectError
  | internalError
deriving DecidableEq, Repr

/-- Errors of `Service::stop`. -/
inductive ServiceStopError where
  | notStarted
  | disconnectError
  | internalError
deriving DecidableEq, Repr

/-- Errors of `Service::destroy`. -/
inductive ServiceDestroyError where
  | notStopped
deriving DecidableEq, Repr

/-- Errors of `Service::handle_message`. -/
inductive ServiceError where
  | invalidMessageFormat
  | notStarted
  | unableToHandleMessage
deriving DecidableEq, Repr

/-- `AdminService::start`: refuse if an adapter is live; connect to the
registry (`connectResult`, `none` on registry failure); store the returned
sender in the shared state; then construct the consensus manager
(`consensusNewOk`).  Note the source sets the network sender before the
consensus construction, so a failed construction leaves the sender set. -/
def start (svc : AdminService) (connectResult : Option Nat)
    (consensusNewOk : Bool) : Except ServiceStartError Unit × AdminService :=
  if svc.consensus.isSome then (.error .alreadyStarted, svc)
  else
    match connectResult with
    | none => (.error .connectError, svc)
    | some sender =>
      let svc' := { svc with
        admin_service_shared :=
          { svc.admin_service_shared with network_sender := some sender } }
      if consensusNewOk then
        (.ok (), { svc' with consensus := some { updates := [], handled := [] } })
      else (.error .internalError, svc')

deriving instance DecidableEq for Except

/-- Result of `AdminService::stop`, with the number of
`registry.disconnect` calls the operation performed. -/
structure StopResult where
  result : Except ServiceStopError Unit
  service : AdminService
  disconnects : Nat
deriving DecidableEq, Repr

/-- `AdminService::stop`, in source order: a first `registry.disconnect`
(before any started check), then `consensus.take()` — `NotStarted` when the
slot is empty — then `shutdown()`, a second `registry.disconnect`, and only
then clearing the network sender. -/
def stop (svc : AdminService) (disc1Ok shutdownOk disc2Ok : Bool) : StopResult :=
  if !disc1Ok then ⟨.error .disconnectError, svc, 1⟩
  else
    match svc.consensus with
    | none => ⟨.error .notStarted, svc, 1⟩
    | some _ =>
      let svc' := { svc with consensus := none }
      if !shutdownOk then ⟨.error .internalError, svc', 1⟩
      else if !disc2Ok then ⟨.error .disconnectError, svc', 2⟩
      else
        ⟨.ok (),
         { svc' with admin_service_shared :=
             { svc'.admin_service_shared with network_sender := none } },
         2⟩

/-- `AdminService::destroy`: `NotStopped` exactly when the consensus adapter
slot is occupied. -/
def destroy (svc : AdminService) : Except ServiceDestroyError Unit :=
  if svc.consensus.isSome then .error .notStopped else .ok ()

/-- `AdminService::handle_message`.  `decoded` is the protobuf parse result
(`none` for undecodable bytes); `sender` is `message_context.sender`;
`dispatchOk` is the outcome of the downstream consensus call
(`consensus.handle_message` / `send_update`).  For `PROPOSED_CIRCUIT` the
proposal is built with `id` the bytes of the `sha256` hex string, `summary`
the envelope's expected hash and `consensus_data` its required verifiers;
the pending insert happens before the consensus adapter is consulted. -/
def handle_message (svc : AdminService) (decoded : Option DecodedAdminMessage)
    (sender : String) (dispatchOk : Bool) :
    Except ServiceError Unit × AdminService :=
  match decoded with
  | none => (.error .invalidMessageFormat, svc)
  | some .unset => (.error .invalidMessageFormat, svc)
  | some (.consensusMessage p) =>
    match svc.consensus with
    | none => (.error .notStarted, svc)
    | some c =>
      if dispatchOk then
        (.ok (), { svc with consensus := some { c with handled := c.handled ++ [p] } })
      else (.error .unableToHandleMessage, svc)
  | some (.proposedCircuit expected_hash circuit_payload required_verifiers) =>
    let proposal : Proposal :=
      { id := strBytes (sha256 circuit_payload)
        summary := expected_hash
        consensus_data := required_verifiers }
    let svc' := { svc with
      admin_service_shared := { svc.admin_service_shared with
        pending := add_pending_consesus_proposal svc.admin_service_shared.pending
          proposal.id (proposal, circuit_payload) } }
    match svc'.consensus with
    | none => (.error .notStarted, svc')
    | some c =>
      if dispatchOk then
        (.ok (), { svc' with consensus := some { c with
          updates := c.updates ++ [.proposalReceived proposal (strBytes sender)] } })
      else (.error .unableToHandleMessage, svc')

/-! ## Reachable states

An operation paired with its collaborators' outcomes; a run is a list of
operations applied from the freshly created service. -/

/-- One lifecycle operation together with the outcomes of the collaborator
calls it makes. -/
inductive AdminOp where
  | opStart (connectResult : Option Nat) (consensusNewOk : Bool)
  | opStop (disc1Ok shutdownOk disc2Ok : Bool)
  | opHandle (decoded : Option DecodedAdminMessage) (sender : String)
      (dispatchOk : Bool)
deriving DecidableEq, Repr

/-- The state after one operation (results discarded). -/
def applyOp (svc : AdminService) : AdminOp → AdminService
  | .opStart c k => (start svc c k).2
  | .opStop a b c => (stop svc a b c).service
  | .opHandle d s ok => (handle_message svc d s ok).2

/-- The state after a run of operations. -/
def runOps (svc : AdminService) (ops : List AdminOp) : AdminService :=
  ops.foldl applyOp svc

/-- The collaborator calls that, when they fail, desynchronize the network
sender from the consensus slot: consensus construction in `start`, and
shutdown / the second disconnect in `stop`.  (A failed registry `connect` or
first `disconnect` aborts before the state is touched and is harmless.) -/
def AdminOp.cleanFailures : AdminOp → Bool
  | .opStart _ k => k
  | .opStop _ b c => b && c
  | .opHandle _ _ _ => true

/-- The claimed shared-state invariant: sender handle present iff started. -/
def senderStartedIff (svc : AdminService) : Prop :=
  svc.admin_service_shared.network_sender.isSome = svc.consensus.isSome

instance (svc : AdminService) : Decidable (senderStartedIff svc) := by
  unfold senderStartedIff; infer_instance

/-! ## REST intake

The routes in `admin/mod.rs` translate results of the shared state into
HTTP responses.  Payload decoding (`from_payload`, `messages.rs`) happens
before the code under study runs, so the handlers take the decode result as
input. -/

/-- The HTTP statuses the admin routes produce. -/
inductive HttpStatus where
  | accepted
  | badRequest
  | internalServerError
deriving DecidableEq, Repr

/-- Modelled from the spec: the error cases of
`AdminServiceShared::propose_circuit` (`admin/shared.rs`, not among the
given sources) — `AlreadyPending`, `NotStarted` (network sender absent) and
`InvalidCircuit`. -/
inductive ProposeCircuitError where
  | alreadyPending
  | notStarted
  | invalidCircuit
deriving DecidableEq, Repr

/-- The `create_circuit` handler of `POST /admin/circuit`, from the decoded
payload onward: `into_proto` failure yields `BadRequest`; otherwise the
`propose_circuit` result is inspected and any error — whatever its kind —
yields `BadRequest`, success `Accepted`. -/
def create_circuit (into_proto : Except Unit Unit)
    (propose_result : Except ProposeCircuitError Unit) : HttpStatus :=
  match into_proto with
  | .error _ => .badRequest
  | .ok _ =>
    match propose_result with
    | .error _ => .badRequest
    | .ok _ => .accepted

/-- Modelled from the spec: a decoded `CircuitProposalVote` body
(`messages.rs`, not among the given sources) — a proposal id and an
accept/reject vote. -/
structure CircuitProposalVote where
  proposal_id : String
  accept : Bool
deriving DecidableEq, Repr

/-- The `POST /admin/vote` handler from `make_vote_route`: the closure
captures the shared state but its body only decodes the payload and replies
`Accepted`; the shared state is returned exactly as captured.  `none` models
a payload that failed to decode (the error propagates to the framework; no
response is built by this code). -/
def vote_route_handler (shared : AdminServiceShared)
    (decoded : Option CircuitProposalVote) :
    Option HttpStatus × AdminServiceShared :=
  match decoded with
  | none => (none, shared)
  | some _ => (some .accepted, shared)

/-- The decoded envelopes that `handle_message` dispatches (everything but
the `UNSET` tag, which is rejected as a format error). -/
def DecodedAdminMessage.dispatchable : DecodedAdminMessage → Bool
  | .unset => false
  | _ => true

/-- A concrete service taken through a successful `start`: the `Started`
state with an empty pending table. -/
def sampleStarted : AdminService :=
  (start (AdminService.new "test-node") (some 0) true).2

/-! ## Helper lemmas -/

/-- A `stop` that returns `Ok` leaves the consensus slot and the network
sender both empty. -/
theorem stop_ok_state (svc : AdminService) (a b c : Bool)
    (h : (stop svc a b c).result = Except.ok ()) :
    (stop svc a b c).service.consensus = none
    ∧ (stop svc a b c).service.admin_service_shared.network_sender = none := by
  rcases hc : svc.consensus with _ | cm
  · cases a <;> simp [stop, hc] at h
  · cases a <;> cases b <;> cases c <;> simp_all [stop, hc]

/-- A single operation whose critical collaborator calls succeed preserves
the sender-iff-started invariant. -/
theorem cleanStep_preserves (svc : AdminService) (op : AdminOp)
    (hinv : senderStartedIff svc) (hop : op.cleanFailures = true) :
    senderStartedIff (applyOp svc op) := by
  obtain ⟨sid, ⟨ns, pend⟩, cons⟩ := svc
  unfold senderStartedIff at hinv ⊢
  simp only at hinv
  cases op with
  | opStart cr k =>
    cases k
    · simp [AdminOp.cleanFailures] at hop
    · cases cons <;> rcases cr with _ | s <;> simp [applyOp, start] <;> simp_all
  | opStop a b c =>
    simp [AdminOp.cleanFailures] at hop
    obtain ⟨hb, hc2⟩ := hop
    subst hb; subst hc2
    cases cons <;> cases a <;> simp [applyOp, stop] <;> simp_all
  | opHandle d sender ok =>
    rcases d with _ | m
    · simpa [applyOp, handle_message] using hinv
    · rcases m with p | ⟨eh, cp, rv⟩ | _
      · cases cons <;> cases ok <;> simp [applyOp, handle_message] <;> simp_all
      · cases cons <;> cases ok <;>
          simp [applyOp, handle_message, add_pending_consesus_proposal] <;> simp_all
      · simpa [applyOp, handle_message] using hinv

/-- A run of operations whose critical collaborator calls succeed preserves
the sender-iff-started invariant. -/
theorem cleanRun_preserves (ops : List AdminOp) (svc : AdminService)
    (hinv : senderStartedIff svc)
    (hops : ∀ op ∈ ops, op.cleanFailures = true) :
    senderStartedIff (runOps svc ops) := by
  induction ops generalizing svc with
  | nil => simpa [runOps] using hinv
  | cons op rest ih =>
    have h1 : op.cleanFailures = true := hops op (by simp)
    have hstep := cleanStep_preserves svc op hinv h1
    simpa [runOps] using ih (applyOp svc op) hstep (fun o ho => hops o (by simp [ho]))

/-! ## Claims -/

/-- C3: the claim says the digest utility renders each byte as exactly two
lowercase hex characters (zero-padded below 16), so `sha256` output always
has 64 characters.  The code's `write!("{:0x}", b)` drops the leading zero
nibble: `to_hex [10]` is `"a"` (one character), and the `sha256` of the
bytes of `"abc"` — a 32-byte digest containing three bytes below 16 — is a
61-character string, not 64. -/
theorem C3_to_hex_drops_leading_zeros :
    to_hex [10] = "a" ∧ (to_hex [10]).length = 1
    ∧ (sha256Digest [97, 98, 99]).length = 32
    ∧ (sha256 [97, 98, 99]).length = 61 := by
  refine ⟨rfl, rfl, by decide, by decide⟩

/-- C9: the `POST /admin/vote` handler is a stub — for every shared state
and every successfully decoded `CircuitProposalVote` it replies
`202 Accepted` and returns the captured shared state untouched, so no
`ProposalAccepted`/`ProposalRejected` ever reaches the consensus adapter. -/
theorem C9_vote_route_is_stub (shared : AdminServiceShared)
    (v : CircuitProposalVote) :
    vote_route_handler shared (some v) = (some HttpStatus.accepted, shared) := rfl

/-- C8 counterexample: a state-caused `propose_circuit` failure
(`NotStarted`) is translated to `400 Bad Request`, not the claimed
`500 Internal Server Error`. -/
theorem C8_counterexample :
    create_circuit (.ok ()) (.error .notStarted) = HttpStatus.badRequest
    ∧ create_circuit (.ok ()) (.error .notStarted) ≠ HttpStatus.internalServerError := by
  decide

/-- C8 amended: the circuit-creation intake yields `202 Accepted` on a
successful `propose_circuit`, and `400 Bad Request` on a conversion failure
and on every `propose_circuit` error — client-caused and state-caused
alike; it never produces `500 Internal Server Error`. -/
theorem C8_amended_all_errors_400 (pr : Except ProposeCircuitError Unit)
    (e : ProposeCircuitError) :
    create_circuit (.ok ()) (.ok ()) = HttpStatus.accepted
    ∧ create_circuit (.error ()) pr = HttpStatus.badRequest
    ∧ create_circuit (.ok ()) (.error e) = HttpStatus.badRequest
    ∧ create_circuit (.ok ()) pr ≠ HttpStatus.internalServerError := by
  refine ⟨rfl, rfl, rfl, ?_⟩
  cases pr <;> simp [create_circuit]

/-- C7 counterexample: `destroy` on a freshly created (never started)
service succeeds — the claim says any state other than `Stopped`, including
`Created`, returns `NotStopped`. -/
theorem C7_counterexample :
    destroy (AdminService.new "test-node") = .ok ()
    ∧ destroy (AdminService.new "test-node") ≠ .error .notStopped := by
  decide

/-- C7 amended: `start` on an already-started service returns
`AlreadyStarted`; `destroy` returns `NotStopped` exactly when the consensus
adapter is live (`Started`) — in `Created` it already succeeds — and after
a successful `stop` it succeeds. -/
theorem C7_amended_guards (svc₀ svc₁ : AdminService)
    (cm : AdminConsensusManager) (cr : Option Nat) (k a b c : Bool)
    (h₀ : svc₀.consensus = none)
    (h₁ : svc₁.consensus = some cm)
    (hstop : (stop svc₁ a b c).result = .ok ()) :
    (start svc₁ cr k).1 = .error .alreadyStarted
    ∧ destroy svc₁ = .error .notStopped
    ∧ destroy svc₀ = .ok ()
    ∧ destroy (stop svc₁ a b c).service = .ok () := by
  refine ⟨by simp [start, h₁], by simp [destroy, h₁], by simp [destroy, h₀], ?_⟩
  have hnone := (stop_ok_state svc₁ a b c hstop).1
  simp [destroy, hnone]

/-- C7 witness: instantiated on a concrete started service with a clean
stop. -/
theorem C7_witness :
    (start sampleStarted (some 1) true).1 = .error .alreadyStarted
    ∧ destroy sampleStarted = .error .notStopped
    ∧ destroy (AdminService.new "other") = .ok ()
    ∧ destroy (stop sampleStarted true true true).service = .ok () :=
  C7_amended_guards (AdminService.new "other") sampleStarted ⟨[], []⟩
    (some 1) true true true true rfl rfl (by decide)

/-- C6 counterexample: `stop` on a never-started service returns
`NotStarted`, but it performs a registry disconnect first — the claim says
no disconnect is performed in that case. -/
theorem C6_counterexample :
    (stop (AdminService.new "test-node") true true true).result
      = .error .notStarted
    ∧ (stop (AdminService.new "test-node") true true true).disconnects = 1
    ∧ (stop (AdminService.new "test-node") true true true).disconnects ≠ 0 := by
  decide

/-- C6 amended: `stop` on a service that is not `Started` performs one
registry disconnect and then returns `NotStarted` with the service state
unchanged; on a `Started` service with succeeding collaborator calls it
disconnects from the registry (twice), drops the consensus adapter and
clears the network sender, leaving the rest of the shared state intact. -/
theorem C6_amended_stop (svc₀ svc₁ : AdminService)
    (cm : AdminConsensusManager) (b c : Bool)
    (h₀ : svc₀.consensus = none) (h₁ : svc₁.consensus = some cm) :
    stop svc₀ true b c = ⟨.error .notStarted, svc₀, 1⟩
    ∧ stop svc₁ true true true =
        ⟨.ok (),
         { svc₁ with
           consensus := none
           admin_service_shared :=
             { svc₁.admin_service_shared with network_sender := none } },
         2⟩ := by
  constructor
  · simp [stop, h₀]
  · simp [stop, h₁]

/-- C6 witness: instantiated on a concrete created and a concrete started
service. -/
theorem C6_witness :
    stop (AdminService.new "test-node") true true true
      = ⟨.error .notStarted, AdminService.new "test-node", 1⟩
    ∧ stop sampleStarted true true true =
        ⟨.ok (),
         { sampleStarted with
           consensus := none
           admin_service_shared :=
             { sampleStarted.admin_service_shared with network_sender := none } },
         2⟩ :=
  C6_amended_stop (AdminService.new "test-node") sampleStarted ⟨[], []⟩
    true true rfl rfl

/-- C4 counterexample: a `start` whose registry `connect` succeeds but
whose consensus-manager construction fails is a failed start that leaves
the network sender installed while the service is not `Started` — a
reachable state violating the claimed iff. -/
theorem C4_counterexample :
    (runOps (AdminService.new "test-node")
        [AdminOp.opStart (some 0) false]).admin_service_shared.network_sender = some 0
    ∧ (runOps (AdminService.new "test-node")
        [AdminOp.opStart (some 0) false]).consensus = none
    ∧ ¬ senderStartedIff (runOps (AdminService.new "test-node")
        [AdminOp.opStart (some 0) false]) := by
  decide

/-- C4 amended: the network sender handle is `Some` iff the service is
`Started` in every state reachable by operations whose critical
collaborator calls succeed (consensus construction in `start`; consensus
shutdown and the second registry disconnect in `stop`); a `start` whose
consensus construction fails, or a `stop` failing after the adapter is
taken, leaves the iff violated. -/
theorem C4_amended_invariant (node : String) (ops : List AdminOp)
    (hops : ∀ op ∈ ops, op.cleanFailures = true) :
    senderStartedIff (runOps (AdminService.new node) ops) :=
  cleanRun_preserves ops (AdminService.new node) rfl hops

/-- C4 witness: a concrete clean start-then-stop run satisfies the
invariant. -/
theorem C4_witness :
    senderStartedIff (runOps (AdminService.new "test-node")
      [AdminOp.opStart (some 0) true, AdminOp.opStop true true true]) :=
  C4_amended_invariant "test-node" _ (by decide)

/-- C5 counterexample: a decodable envelope whose type is `UNSET`, handled
in the `Created` state, returns `InvalidMessageFormat`, not the claimed
`NotStarted`. -/
theorem C5_counterexample :
    (handle_message (AdminService.new "test-node") (some .unset) "peer" true).1
      = .error .invalidMessageFormat
    ∧ (handle_message (AdminService.new "test-node") (some .unset) "peer" true).1
      ≠ .error .notStarted := by
  decide

/-- C5 amended: for every decodable envelope of a dispatchable type
(`CONSENSUS_MESSAGE` or `PROPOSED_CIRCUIT`), `handle_message` in the
`Created` state returns `NotStarted`; while `Started` it dispatches (the
result is never `NotStarted` or `InvalidMessageFormat`); and after a
successful `stop` it returns `NotStarted` again.  Undecodable bytes and
`UNSET` envelopes instead return `InvalidMessageFormat` in every state. -/
theorem C5_amended_dispatch (svc₀ svc₁ : AdminService)
    (m : DecodedAdminMessage) (sender : String) (ok a b c : Bool)
    (hm : m.dispatchable = true)
    (h₀ : svc₀.consensus = none)
    (h₁ : svc₁.consensus.isSome = true)
    (hstop : (stop svc₁ a b c).result = .ok ()) :
    (handle_message svc₀ (some m) sender ok).1 = .error .notStarted
    ∧ (handle_message svc₁ (some m) sender ok).1 ≠ .error .notStarted
    ∧ (handle_message svc₁ (some m) sender ok).1 ≠ .error .invalidMessageFormat
    ∧ (handle_message (stop svc₁ a b c).service (some m) sender ok).1
      = .error .notStarted := by
  obtain ⟨cm, hcm⟩ := Option.isSome_iff_exists.mp h₁
  have hnone := (stop_ok_state svc₁ a b c hstop).1
  rcases m with p | ⟨eh, cp, rv⟩ | _
  · exact ⟨by simp [handle_message, h₀],
      by cases ok <;> simp [handle_message, hcm],
      by cases ok <;> simp [handle_message, hcm],
      by simp [handle_message, hnone]⟩
  · exact ⟨by simp [handle_message, h₀],
      by cases ok <;> simp [handle_message, hcm],
      by cases ok <;> simp [handle_message, hcm],
      by simp [handle_message, hnone]⟩
  · simp [DecodedAdminMessage.dispatchable] at hm

/-- C5 witness: instantiated on a concrete created service, a concrete
started service and a clean stop, with a `CONSENSUS_MESSAGE` envelope. -/
theorem C5_witness :
    (handle_message (AdminService.new "other") (some (.consensusMessage [1]))
        "peer" true).1 = .error .notStarted
    ∧ (handle_message sampleStarted (some (.consensusMessage [1]))
        "peer" true).1 ≠ .error .notStarted
    ∧ (handle_message sampleStarted (some (.consensusMessage [1]))
        "peer" true).1 ≠ .error .invalidMessageFormat
    ∧ (handle_message (stop sampleStarted true true true).service
        (some (.consensusMessage [1])) "peer" true).1 = .error .notStarted :=
  C5_amended_dispatch (AdminService.new "other") sampleStarted
    (.consensusMessage [1]) "peer" true true true true rfl rfl rfl (by decide)

/-- C1: for an inbound `PROPOSED_CIRCUIT` envelope handled while the
service is started (with an id not already pending), the computed
proposal — id the bytes of the `sha256` hex digest of the payload, summary
the envelope's expected hash, consensus data its required verifiers — is
inserted into the pending table whether or not the consensus delivery
succeeds, and when the delivery succeeds the adapter receives
`ProposalReceived` tagged with the context's sender only after the entry is
in the table. -/
theorem C1_peer_proposal_insert_then_deliver (svc : AdminService)
    (cm : AdminConsensusManager) (eh cp : List Nat) (rv : List (List Nat))
    (sender : String)
    (hc : svc.consensus = some cm)
    (hfresh : lookupPending svc.admin_service_shared.pending
      (strBytes (sha256 cp)) = none) :
    lookupPending ((handle_message svc (some (.proposedCircuit eh cp rv))
        sender false).2).admin_service_shared.pending (strBytes (sha256 cp))
      = some (⟨strBytes (sha256 cp), eh, rv⟩, cp)
    ∧ lookupPending ((handle_message svc (some (.proposedCircuit eh cp rv))
        sender true).2).admin_service_shared.pending (strBytes (sha256 cp))
      = some (⟨strBytes (sha256 cp), eh, rv⟩, cp)
    ∧ ((handle_message svc (some (.proposedCircuit eh cp rv)) sender true).2).consensus
      = some { cm with updates := cm.updates ++
          [.proposalReceived ⟨strBytes (sha256 cp), eh, rv⟩ (strBytes sender)] } := by
  refine ⟨?_, ?_, ?_⟩ <;>
    simp [handle_message, add_pending_consesus_proposal, hfresh, hc, lookupPending]

/-- C1 witness: a concrete envelope handled by a concrete started
service. -/
theorem C1_witness :
    lookupPending ((handle_message sampleStarted
        (some (.proposedCircuit [1, 2] [97, 98, 99] [[111]]))
        "admin::other-node" false).2).admin_service_shared.pending
        (strBytes (sha256 [97, 98, 99]))
      = some (⟨strBytes (sha256 [97, 98, 99]), [1, 2], [[111]]⟩, [97, 98, 99])
    ∧ lookupPending ((handle_message sampleStarted
        (some (.proposedCircuit [1, 2] [97, 98, 99] [[111]]))
        "admin::other-node" true).2).admin_service_shared.pending
        (strBytes (sha256 [97, 98, 99]))
      = some (⟨strBytes (sha256 [97, 98, 99]), [1, 2], [[111]]⟩, [97, 98, 99])
    ∧ ((handle_message sampleStarted
        (some (.proposedCircuit [1, 2] [97, 98, 99] [[111]]))
        "admin::other-node" true).2).consensus
      = some ⟨[.proposalReceived ⟨strBytes (sha256 [97, 98, 99]), [1, 2], [[111]]⟩
          (strBytes "admin::other-node")], []⟩ :=
  C1_peer_proposal_insert_then_deliver sampleStarted ⟨[], []⟩
    [1, 2] [97, 98, 99] [[111]] "admin::other-node" rfl rfl

/-- C2 counterexample: for a concrete payload (the bytes of `"abc"`), the
proposal id recorded by `handle_message` is the 61 ASCII bytes of the hex
string, not the raw 32-byte SHA-256 digest. -/
theorem C2_counterexample :
    ((handle_message sampleStarted
        (some (.proposedCircuit [1, 2] [97, 98, 99] [[111]]))
        "admin::other-node" true).2).admin_service_shared.pending.map
        (fun e => e.2.1.id)
      = [strBytes (sha256 [97, 98, 99])]
    ∧ strBytes (sha256 [97, 98, 99]) ≠ sha256Digest [97, 98, 99]
    ∧ (strBytes (sha256 [97, 98, 99])).length = 61
    ∧ (sha256Digest [97, 98, 99]).length = 32 := by
  decide

/-- C2 amended: the proposal id the admin service records is the ASCII
byte string of the (lowercase, leading-zero-dropping) hex rendering of the
SHA-256 digest of the payload bytes — `as_bytes` of the `sha256` hex
string — not the raw 32-byte digest. -/
theorem C2_amended_id_is_hex_bytes (svc : AdminService) (eh cp : List Nat)
    (rv : List (List Nat)) (sender : String) (ok : Bool)
    (hfresh : lookupPending svc.admin_service_shared.pending
      (strBytes (sha256 cp)) = none) :
    (lookupPending ((handle_message svc (some (.proposedCircuit eh cp rv))
        sender ok).2).admin_service_shared.pending
        (strBytes (sha256 cp))).map (fun e => e.1.id)
      = some (strBytes (to_hex (sha256Digest cp))) := by
  have hfresh' : lookupPending svc.admin_service_shared.pending
      (strBytes (to_hex (sha256Digest cp))) = none := hfresh
  rcases hc : svc.consensus with _ | cm <;> cases ok <;>
    simp [handle_message, add_pending_consesus_proposal, hfresh', hc,
      lookupPending, sha256]

/-- C2 witness: instantiated on a freshly created service and a concrete
payload. -/
theorem C2_witness :
    (lookupPending ((handle_message (AdminService.new "test-node")
        (some (.proposedCircuit [1, 2] [97, 98, 99] [[111]]))
        "admin::other-node" true).2).admin_service_shared.pending
        (strBytes (sha256 [97, 98, 99]))).map (fun e => e.1.id)
      = some (strBytes (to_hex (sha256Digest [97, 98, 99]))) :=
  C2_amended_id_is_hex_bytes (AdminService.new "test-node") [1, 2] [97, 98, 99]
    [[111]] "admin::other-node" true rfl

/-- C10: a decodable `PROPOSED_CIRCUIT` envelope handled while the
consensus adapter is absent still inserts the computed proposal into the
pending table and only then fails with `NotStarted` — the error path is
not atomic with respect to the shared state. -/
theorem C10_insert_survives_notStarted_error (svc : AdminService)
    (eh cp : List Nat) (rv : List (List Nat)) (sender : String) (ok : Bool)
    (hc : svc.consensus = none)
    (hfresh : lookupPending svc.admin_service_shared.pending
      (strBytes (sha256 cp)) = none) :
    (handle_message svc (some (.proposedCircuit eh cp rv)) sender ok).1
      = .error .notStarted
    ∧ lookupPending ((handle_message svc (some (.proposedCircuit eh cp rv))
        sender ok).2).admin_service_shared.pending (strBytes (sha256 cp))
      = some (⟨strBytes (sha256 cp), eh, rv⟩, cp) := by
  constructor <;>
    simp [handle_message, add_pending_consesus_proposal, hfresh, hc, lookupPending]

/-- C10 witness: a concrete envelope handled by a freshly created
service. -/
theorem C10_witness :
    (handle_message (AdminService.new "test-node")
        (some (.proposedCircuit [1, 2] [97, 98, 99] [[111]]))
        "admin::other-node" true).1 = .error .notStarted
    ∧ lookupPending ((handle_message (AdminService.new "test-node")
        (some (.proposedCircuit [1, 2] [97, 98, 99] [[111]]))
        "admin::other-node" true).2).admin_service_shared.pending
        (strBytes (sha256 [97, 98, 99]))
      = some (⟨strBytes (sha256 [97, 98, 99]), [1, 2], [[111]]⟩, [97, 98, 99]) :=
  C10_insert_survives_notStarted_error (AdminService.new "test-node")
    [1, 2] [97, 98, 99] [[111]] "admin::other-node" true rfl rfl

end SplinterAdmin
